import Mathlib

/-!
Shallow embedding of the voxel-terrain subsystem of the `mekeni` repository
(`elevationService.js`, `src/unnamed/part_007`, `voxelChunk.js`, the
`ChunkManager` part of `frame.js`), together with theorems settling the
frozen claims about it.

JavaScript semantics modelled explicitly:
* JS numbers are IEEE-754 binary64.  Every value arising in `hash` is
  integer-valued, so a float is modelled as an `Int` and every arithmetic
  step applies `fround`, rounding to 53 significant bits (round to
  nearest, ties to even) exactly as binary64 does for integer values.
  Inputs are taken as exact integers (faithful for |x| < 2^53) and the
  model ignores overflow to Infinity, which only occurs beyond ~2^960.
* JS bitwise operators convert their operands with ToInt32/ToUint32
  (reduce mod 2^32, signed resp. unsigned) and return a signed 32-bit
  value; `>>>` returns an unsigned 32-bit value.
* Division of a 32-bit integer by 2^31 is exact in binary64, so the final
  value of `hash` is an exact rational.
-/

namespace Mekeni

/-- ToUint32 of an integer-valued JS number: reduce mod 2^32 into [0, 2^32). -/
def toUint32 (n : ℤ) : ℕ := (n % 4294967296).toNat

/-- ToInt32 of an integer-valued JS number: reduce mod 2^32 into [-2^31, 2^31). -/
def toInt32 (n : ℤ) : ℤ :=
  let u := n % 4294967296
  if u < 2147483648 then u else u - 4294967296

/-- JS `a ^ b` (bitwise xor): xor of the 32-bit patterns, reinterpreted signed. -/
def jsXor (a b : ℤ) : ℤ := toInt32 (Int.ofNat (Nat.xor (toUint32 a) (toUint32 b)))

/-- JS `a >>> k` (unsigned right shift): shift of the unsigned 32-bit pattern. -/
def jsShrU (a : ℤ) (k : ℕ) : ℤ := Int.ofNat (Nat.shiftRight (toUint32 a) k)

/-- Fuel-carrying bit-length helper (structural recursion so the kernel can
evaluate it). -/
def bitlenAux : ℕ → ℕ → ℕ
  | 0, _ => 0
  | _ + 1, 0 => 0
  | fuel + 1, n => bitlenAux fuel (n / 2) + 1

/-- Number of binary digits of `n` (`bitlen 0 = 0`, `bitlen n = ⌊log2 n⌋ + 1`). -/
def bitlen (n : ℕ) : ℕ := bitlenAux n n

/-- Round a natural number to 53 significant bits, ties to even: the exact
value stored when binary64 arithmetic produces the mathematical integer `n`. -/
def froundNat (n : ℕ) : ℕ :=
  if bitlen n ≤ 53 then n
  else
    let k := bitlen n - 53
    let q := n >>> k
    let r := n - (q <<< k)
    let half := 1 <<< (k - 1)
    let q' := if half < r ∨ (r = half ∧ q % 2 = 1) then q + 1 else q
    q' <<< k

/-- binary64 rounding of an integer value (sign-symmetric, as IEEE-754 is). -/
def fround (n : ℤ) : ℤ := Int.sign n * (froundNat n.natAbs : ℤ)

/-- The fixed world seed from the `ElevationService` constructor
(`this.worldSeed = 12345`, identical in `elevationService.js` and
`src/unnamed/part_007`). -/
def worldSeed : ℤ := 12345

/-- The integer pipeline of `ElevationService.hash(x, y)`:
```js
let h = this.worldSeed + x * 374761393 + y * 668265263;
h = (h ^ (h >>> 13)) * 1274126177;
return (h ^ (h >>> 16)) / 2147483648.0;
```
with `+`/`*` as binary64 arithmetic (`fround`) and the bitwise steps under
ToInt32/ToUint32 semantics; this computes the signed 32-bit numerator of
the returned value. -/
def hashInt (seed x y : ℤ) : ℤ :=
  let t1 := fround (x * 374761393)
  let t2 := fround (seed + t1)
  let t3 := fround (y * 668265263)
  let h0 := fround (t2 + t3)
  let h1 := jsXor h0 (jsShrU h0 13)
  let h2 := fround (h1 * 1274126177)
  jsXor h2 (jsShrU h2 16)

/-- `ElevationService.hash(x, y)`: the final division of the signed 32-bit
value by `2147483648.0` is exact in binary64, modelled in `ℚ`. -/
def hash (seed x y : ℤ) : ℚ := (hashInt seed x y : ℚ) / 2147483648

/-! ### ElevationService cave carving (`src/unnamed/part_007`)

The constructor constants and `shouldCarveBlock` of the `ElevationService`
variant in `src/unnamed/part_007`.  Float literals are modelled as exact
rationals; `noise3D` (which uses `Math.sin`/`Math.cos`) is abstracted as a
function parameter, so every theorem below holds for the actual noise
function among all others. -/

/-- `this.caveScale1 = 0.015` (large cave systems). -/
def caveScale1 : ℚ := 0.015

/-- `this.caveScale2 = 0.04` (medium caves). -/
def caveScale2 : ℚ := 0.04

/-- `this.caveScale3 = 0.08` (small tunnels). -/
def caveScale3 : ℚ := 0.08

/-- `this.caveThreshold = 0.3` (default carve threshold). -/
def caveThreshold : ℚ := 0.3

/-- `this.surfaceCutoff = 45` (no caves above this height). -/
def surfaceCutoff : ℚ := 45

/-- `this.shallowCaveDepth = 25` (no caves in upper underground). -/
def shallowCaveDepth : ℚ := 25

/-- `this.midDepthCutoff = 35` (more caves deeper underground). -/
def midDepthCutoff : ℚ := 35

/-- `this.deepCaveDepth = 60`. -/
def deepCaveDepth : ℚ := 60

/-- The combined three-scale cave noise value computed by
`shouldCarveBlock`:
```js
const cave1 = Math.abs(this.noise3D(worldX * caveScale1, worldY * caveScale1, worldZ * caveScale1));
const cave2 = Math.abs(this.noise3D(worldX * caveScale2, worldY * caveScale2, worldZ * caveScale2));
const cave3 = Math.abs(this.noise3D(worldX * caveScale3, worldY * caveScale3, worldZ * caveScale3));
const combinedCave = (cave1 + cave2 * 0.3 + cave3 * 0.1) / 1.4;
``` -/
def combinedCave (noise3D : ℚ → ℚ → ℚ → ℚ) (worldX worldY worldZ : ℚ) : ℚ :=
  let cave1 := |noise3D (worldX * caveScale1) (worldY * caveScale1) (worldZ * caveScale1)|
  let cave2 := |noise3D (worldX * caveScale2) (worldY * caveScale2) (worldZ * caveScale2)|
  let cave3 := |noise3D (worldX * caveScale3) (worldY * caveScale3) (worldZ * caveScale3)|
  (cave1 + cave2 * 0.3 + cave3 * 0.1) / 1.4

/-- `ElevationService.shouldCarveBlock(worldX, worldY, worldZ)` from
`src/unnamed/part_007`: early-out above `surfaceCutoff` and below
`shallowCaveDepth`, then the sequential threshold reassignments
(`0.2` when `depth < midDepthCutoff`, `0.35` when `depth > deepCaveDepth`,
otherwise the default `caveThreshold`), finally comparing the combined
noise against the selected threshold. -/
def shouldCarveBlock (noise3D : ℚ → ℚ → ℚ → ℚ) (worldX worldY worldZ : ℚ) : Bool :=
  if worldY > surfaceCutoff then false
  else if worldY < shallowCaveDepth then false
  else
    let t0 : ℚ := caveThreshold
    let t1 : ℚ := if worldY < midDepthCutoff then 0.2 else t0
    let t2 : ℚ := if worldY > deepCaveDepth then 0.35 else t1
    decide (combinedCave noise3D worldX worldY worldZ < t2)

/-- The two-bracket variant of `shouldCarveBlock`: identical except the
deep-bracket rule (`if (depth > this.deepCaveDepth) caveThreshold = 0.35`)
is removed. -/
def shouldCarveBlockTwoBracket (noise3D : ℚ → ℚ → ℚ → ℚ)
    (worldX worldY worldZ : ℚ) : Bool :=
  if worldY > surfaceCutoff then false
  else if worldY < shallowCaveDepth then false
  else
    let t0 : ℚ := caveThreshold
    let t1 : ℚ := if worldY < midDepthCutoff then 0.2 else t0
    decide (combinedCave noise3D worldX worldY worldZ < t1)

/-! ### VoxelChunk (`voxelChunk.js`)

The dense voxel grid, its accessors, the face-culling mesh builder and
`dispose`.  A mesh is identified with the geometry data the builder
produces; normals and colors are pushed in lockstep with the vertices in
the source (colors additionally use `Math.random()`) and do not affect any
count the claims mention, so the model keeps the `vertices` and `indices`
arrays and the `indexCount` counter.  `dispose` is `Option`-valued:
`none` models the `TypeError` thrown by `this.mesh.geometry` when
`this.mesh` is `null`. -/

/-- The geometry data built by `VoxelChunk.buildMesh`. -/
structure MeshData where
  vertices : List ℤ
  indices : List ℕ
  indexCount : ℕ
deriving DecidableEq

/-- The state of a `VoxelChunk`: grid dimensions, the flat `Uint8Array`
(`x + y*size + z*size*size` addressing) and the current mesh
(`null` at construction). -/
structure VoxelChunk where
  size : ℕ
  maxHeight : ℕ
  data : List ℕ
  mesh : Option MeshData
deriving DecidableEq

/-- `new VoxelChunk(size, maxHeight, ...)` before terrain fill: a zeroed
`Uint8Array(size * maxHeight * size)` and no mesh. -/
def VoxelChunk.new (size maxHeight : ℕ) : VoxelChunk :=
  ⟨size, maxHeight, List.replicate (size * maxHeight * size) 0, none⟩

/-- `VoxelChunk.setBlock(x, y, z, id)`:
`this.data[x + (y * this.size) + (z * this.size * this.size)] = id;` —
no bounds validation; a typed-array store at an index outside
`[0, length)` is silently ignored, an in-range store keeps the low byte. -/
def VoxelChunk.setBlock (c : VoxelChunk) (x y z : ℤ) (id : ℕ) : VoxelChunk :=
  let idx : ℤ := x + y * c.size + z * c.size * c.size
  if 0 ≤ idx ∧ idx.toNat < c.data.length then
    { c with data := c.data.set idx.toNat (id % 256) }
  else c

/-- `VoxelChunk.getBlock(x, y, z)`: returns 0 for any coordinate outside
`[0,size)×[0,maxHeight)×[0,size)`, otherwise reads the flat array. -/
def VoxelChunk.getBlock (c : VoxelChunk) (x y z : ℤ) : ℕ :=
  if x < 0 ∨ (c.size : ℤ) ≤ x ∨ y < 0 ∨ (c.maxHeight : ℤ) ≤ y
      ∨ z < 0 ∨ (c.size : ℤ) ≤ z then 0
  else c.data.getD (x + y * c.size + z * c.size * c.size).toNat 0

/-- The `faceDirs` table of `buildMesh`: direction and four corners per
face, in source order. -/
def faceDirs : List ((ℤ × ℤ × ℤ) × List (ℤ × ℤ × ℤ)) :=
  [ ((1, 0, 0),  [(1,1,0), (1,1,1), (1,0,1), (1,0,0)]),
    ((-1, 0, 0), [(0,1,1), (0,1,0), (0,0,0), (0,0,1)]),
    ((0, 1, 0),  [(0,1,1), (1,1,1), (1,1,0), (0,1,0)]),
    ((0, -1, 0), [(0,0,0), (1,0,0), (1,0,1), (0,0,1)]),
    ((0, 0, 1),  [(1,1,1), (0,1,1), (0,0,1), (1,0,1)]),
    ((0, 0, -1), [(0,1,0), (1,1,0), (1,0,0), (0,0,0)]) ]

/-- The geometry-building loops of `VoxelChunk.buildMesh`: for every
non-empty voxel (`y` outer, then `z`, then `x`) and every face direction
whose neighbor voxel reads 0, push the four corner vertices and the six
indices of the two triangles, advancing `indexCount` by 4. -/
def VoxelChunk.buildMeshData (c : VoxelChunk) : MeshData :=
  (List.range c.maxHeight).foldl (fun acc y =>
    (List.range c.size).foldl (fun acc z =>
      (List.range c.size).foldl (fun acc x =>
        if c.getBlock x y z ≠ 0 then
          faceDirs.foldl (fun acc f =>
            if c.getBlock (x + f.1.1) (y + f.1.2.1) (z + f.1.2.2) = 0 then
              { vertices := acc.vertices ++
                  f.2.flatMap (fun corner =>
                    [(x : ℤ) + corner.1, (y : ℤ) + corner.2.1, (z : ℤ) + corner.2.2]),
                indices := acc.indices ++
                  [acc.indexCount, acc.indexCount + 1, acc.indexCount + 2,
                   acc.indexCount, acc.indexCount + 2, acc.indexCount + 3],
                indexCount := acc.indexCount + 4 }
            else acc) acc
        else acc) acc) acc) ⟨[], [], 0⟩

/-- `VoxelChunk.buildMesh()`: builds the geometry, disposes a previous mesh
if one exists (a resource release that leaves the modelled state unchanged)
and installs the new mesh. -/
def VoxelChunk.buildMesh (c : VoxelChunk) : VoxelChunk :=
  { c with mesh := some c.buildMeshData }

/-- `VoxelChunk.dispose()`:
`this.mesh.geometry.dispose(); this.mesh.material.dispose();` — when
`this.mesh` is `null` the property access throws a `TypeError` (`none`);
otherwise the GPU resources are released and the fields are unchanged. -/
def VoxelChunk.dispose (c : VoxelChunk) : Option VoxelChunk :=
  match c.mesh with
  | none => none
  | some _ => some c

/-- `VoxelChunk._getNoiseHeight(x, z)`:
```js
const n = this.noise((this.chunkX * this.size + x) / 20, (this.chunkZ * this.size + z) / 20);
return Math.floor(((n + 1) / 2) * (this.maxHeight - 1)) + 1;
```
`this.noise` is the per-instance function produced by `createNoise2D()` —
called with no argument, hence seeded from `Math.random()`, not from the
world seed — so it is a parameter of the model. -/
def getNoiseHeight (noise : ℚ → ℚ → ℚ) (size maxHeight : ℕ) (chunkX chunkZ : ℤ)
    (x z : ℤ) : ℤ :=
  let n := noise (((chunkX * size + x : ℤ) : ℚ) / 20) (((chunkZ * size + z : ℤ) : ℚ) / 20)
  ⌊(n + 1) / 2 * ((maxHeight : ℚ) - 1)⌋ + 1

/-! ### ChunkManager (`frame.js`)

`chunkKey(cx, cz)` produces the string `"cx,cz"` and the unload scan
recovers the pair with `key.split(',').map(Number)`; this round-trip is the
identity on integer pairs, so keys are modelled as the pairs themselves.
`this.chunks` is a `Map` (we track its key set), `this.loadingChunks` a
`Set`, and the scene is modelled by the set of chunk meshes attached to it,
a mesh being identified by its chunk key.  JS `Map`/`Set` are
insertion-ordered, so all three are kept as lists to which `add`/`set` of
an absent key appends.  `loadChunksAround` also returns the list of keys
for which it started `_generateChunk`, in visit order; a started task runs
`generateChunkRun` later (the manager is single-threaded, so the task body
and the scan never interleave within one mutation). -/

/-- `const CHUNK_SIZE = 32`. -/
def CHUNK_SIZE : ℤ := 32

/-- `const VIEW_DISTANCE = 2`. -/
def VIEW_DISTANCE : ℤ := 2

/-- The ChunkManager state: loaded chunk keys, in-flight keys, and the keys
whose mesh is currently attached to the scene. -/
structure CMState where
  chunks : List (ℤ × ℤ)
  loadingChunks : List (ℤ × ℤ)
  scene : List (ℤ × ℤ)
deriving DecidableEq

/-- The freshly constructed manager: empty map, empty in-flight set, and an
empty scene. -/
def CMState.init : CMState := ⟨[], [], []⟩

/-- The `(dx, dz)` visit order of the load loop:
`for dx = -VIEW_DISTANCE..VIEW_DISTANCE { for dz = -VIEW_DISTANCE..VIEW_DISTANCE }`. -/
def viewOffsets : List (ℤ × ℤ) :=
  [-2, -1, 0, 1, 2].flatMap fun dx => [-2, -1, 0, 1, 2].map fun dz => (dx, dz)

/-- One iteration of the load loop of `loadChunksAround`: visit the key at
offset `d` from the view chunk; if it is neither loaded nor in-flight, add
it to the in-flight set and start `_generateChunk` (recorded in the second
component). -/
def loadStep (cx cz : ℤ) (acc : CMState × List (ℤ × ℤ)) (d : ℤ × ℤ) :
    CMState × List (ℤ × ℤ) :=
  let key := (cx + d.1, cz + d.2)
  if key ∉ acc.1.chunks ∧ key ∉ acc.1.loadingChunks then
    ({ acc.1 with loadingChunks := acc.1.loadingChunks ++ [key] }, acc.2 ++ [key])
  else acc

/-- The load half of `loadChunksAround`: the nested loop over the view
square in visit order. -/
def loadPhase (s : CMState) (cx cz : ℤ) : CMState × List (ℤ × ℤ) :=
  viewOffsets.foldl (loadStep cx cz) (s, [])

/-- The unload test: `Math.abs(ccx - cx) > VIEW_DISTANCE || Math.abs(ccz - cz) > VIEW_DISTANCE`. -/
def isFar (cx cz : ℤ) (k : ℤ × ℤ) : Bool :=
  decide (VIEW_DISTANCE < |k.1 - cx|) || decide (VIEW_DISTANCE < |k.2 - cz|)

/-- The unload half of `loadChunksAround`: every loaded entry whose key is
far from the view chunk has its mesh removed from the scene and is deleted
from the loaded map. -/
def unloadPhase (s : CMState) (cx cz : ℤ) : CMState :=
  { s with
    chunks := s.chunks.filter fun k => !isFar cx cz k,
    scene := s.scene.filter fun m => !(isFar cx cz m && decide (m ∈ s.chunks)) }

/-- `ChunkManager.loadChunksAround(x, z)`: compute the view chunk by floor
division (`Math.floor` on an integer argument is floor division), run the
load loop, then the unload scan, and report the generation tasks started. -/
def loadChunksAround (s : CMState) (x z : ℤ) : CMState × List (ℤ × ℤ) :=
  let cx := Int.fdiv x CHUNK_SIZE
  let cz := Int.fdiv z CHUNK_SIZE
  let p := loadPhase s cx cz
  (unloadPhase p.1 cx cz, p.2)

/-- The effect of one `_generateChunk(chunkX, chunkZ, key)` task completing:
on success the `try` body registers the chunk under its key and adds its
mesh to the scene; on an uncaught error the `catch` only logs; in both
cases the `finally` block deletes the key from the in-flight set. -/
def generateChunkRun (s : CMState) (key : ℤ × ℤ) (success : Bool) : CMState :=
  let s1 :=
    if success then
      { s with
        chunks := if key ∈ s.chunks then s.chunks else s.chunks ++ [key],
        scene := s.scene ++ [key] }
    else s
  { s1 with loadingChunks := s1.loadingChunks.filter fun k => !decide (k = key) }

/-! The load/unload transition scenario of the specification: start from a
fresh manager, call `loadChunksAround(0, 0)`, let every started generation
task complete successfully, then call
`loadChunksAround(CHUNK_SIZE * 2 * VIEW_DISTANCE, 0)` and let its tasks
complete as well. -/

/-- Manager state after `loadChunksAround(0, 0)` on a fresh manager and
completion of every generation task it started. -/
def scenarioAfterFirst : CMState :=
  (loadChunksAround CMState.init 0 0).2.foldl (fun s k => generateChunkRun s k true)
    (loadChunksAround CMState.init 0 0).1

/-- The second call, `loadChunksAround(CHUNK_SIZE * 2 * VIEW_DISTANCE, 0)`,
made from `scenarioAfterFirst`. -/
def scenarioSecond : CMState × List (ℤ × ℤ) :=
  loadChunksAround scenarioAfterFirst (CHUNK_SIZE * 2 * VIEW_DISTANCE) 0

/-- Manager state once the second call's generation tasks complete. -/
def scenarioFinal : CMState :=
  scenarioSecond.2.foldl (fun s k => generateChunkRun s k true) scenarioSecond.1

/-! ### Helper lemmas -/

lemma toInt32_bounds (n : ℤ) : -2147483648 ≤ toInt32 n ∧ toInt32 n < 2147483648 := by
  unfold toInt32
  have h1 : 0 ≤ n % 4294967296 := Int.emod_nonneg n (by norm_num)
  have h2 : n % 4294967296 < 4294967296 := Int.emod_lt_of_pos n (by norm_num)
  dsimp only
  split <;> omega

lemma hashInt_bounds (seed x y : ℤ) :
    -2147483648 ≤ hashInt seed x y ∧ hashInt seed x y < 2147483648 := by
  simp only [hashInt, jsXor]
  exact toInt32_bounds _

lemma loadFold_spec (cx cz : ℤ) (l : List (ℤ × ℤ)) (p : CMState × List (ℤ × ℤ)) :
    ∃ new : List (ℤ × ℤ),
      (l.foldl (loadStep cx cz) p).1.chunks = p.1.chunks ∧
      (l.foldl (loadStep cx cz) p).1.scene = p.1.scene ∧
      (l.foldl (loadStep cx cz) p).1.loadingChunks = p.1.loadingChunks ++ new ∧
      (l.foldl (loadStep cx cz) p).2 = p.2 ++ new ∧
      new.Nodup ∧
      ∀ k ∈ new, k ∉ p.1.chunks ∧ k ∉ p.1.loadingChunks := by
  induction l generalizing p with
  | nil => exact ⟨[], rfl, rfl, by simp, by simp, List.nodup_nil, by simp⟩
  | cons d l ih =>
    rw [List.foldl_cons]
    rcases ih (loadStep cx cz p d) with ⟨new, h1, h2, h3, h4, h5, h6⟩
    by_cases hg : (cx + d.1, cz + d.2) ∉ p.1.chunks ∧ (cx + d.1, cz + d.2) ∉ p.1.loadingChunks
    · have e1 : (loadStep cx cz p d).1.chunks = p.1.chunks := by
        simp [loadStep, if_pos hg]
      have e2 : (loadStep cx cz p d).1.scene = p.1.scene := by
        simp [loadStep, if_pos hg]
      have e3 : (loadStep cx cz p d).1.loadingChunks
          = p.1.loadingChunks ++ [(cx + d.1, cz + d.2)] := by
        simp [loadStep, if_pos hg]
      have e4 : (loadStep cx cz p d).2 = p.2 ++ [(cx + d.1, cz + d.2)] := by
        simp [loadStep, if_pos hg]
      refine ⟨(cx + d.1, cz + d.2) :: new, h1.trans e1, h2.trans e2, ?_, ?_, ?_, ?_⟩
      · rw [h3, e3]; simp
      · rw [h4, e4]; simp
      · refine List.nodup_cons.mpr ⟨fun hmem => ?_, h5⟩
        have h := (h6 _ hmem).2
        rw [e3] at h
        simp at h
      · intro k hk
        rcases List.mem_cons.mp hk with rfl | hk
        · exact hg
        · have h := h6 k hk
          rw [e1] at h
          refine ⟨h.1, fun hmem => h.2 ?_⟩
          rw [e3]
          exact List.mem_append_left _ hmem
    · have hstep : loadStep cx cz p d = p := by
        simp only [loadStep, if_neg hg]
      rw [hstep] at h1 h2 h3 h4 h6 ⊢
      exact ⟨new, h1, h2, h3, h4, h5, h6⟩

lemma loadFold_covers (cx cz : ℤ) (l : List (ℤ × ℤ)) (p : CMState × List (ℤ × ℤ))
    (d : ℤ × ℤ) (hd : d ∈ l) :
    (cx + d.1, cz + d.2) ∈ (l.foldl (loadStep cx cz) p).1.chunks ∨
    (cx + d.1, cz + d.2) ∈ (l.foldl (loadStep cx cz) p).1.loadingChunks := by
  induction l generalizing p with
  | nil => cases hd
  | cons e l ih =>
    rw [List.foldl_cons]
    rcases List.mem_cons.mp hd with rfl | hd'
    · have hkey : (cx + d.1, cz + d.2) ∈ (loadStep cx cz p d).1.chunks ∨
          (cx + d.1, cz + d.2) ∈ (loadStep cx cz p d).1.loadingChunks := by
        by_cases hc : (cx + d.1, cz + d.2) ∈ p.1.chunks
        · have hstep : loadStep cx cz p d = p := by
            simp only [loadStep]
            rw [if_neg (by tauto)]
          rw [hstep]; exact Or.inl hc
        · by_cases hl : (cx + d.1, cz + d.2) ∈ p.1.loadingChunks
          · have hstep : loadStep cx cz p d = p := by
              simp only [loadStep]
              rw [if_neg (by tauto)]
            rw [hstep]; exact Or.inr hl
          · right
            have e3 : (loadStep cx cz p d).1.loadingChunks
                = p.1.loadingChunks ++ [(cx + d.1, cz + d.2)] := by
              simp [loadStep, if_pos (And.intro hc hl)]
            rw [e3]; simp
      rcases loadFold_spec cx cz l (loadStep cx cz p d) with ⟨new, h1, _, h3, _, _, _⟩
      rcases hkey with hc | hl
      · left; rw [h1]; exact hc
      · right; rw [h3]; exact List.mem_append_left _ hl
    · exact ih (loadStep cx cz p e) hd'

lemma loadFold_no_tasks (cx cz : ℤ) (l : List (ℤ × ℤ)) (p : CMState × List (ℤ × ℤ))
    (h : ∀ d ∈ l, (cx + d.1, cz + d.2) ∈ p.1.chunks ∨ (cx + d.1, cz + d.2) ∈ p.1.loadingChunks) :
    l.foldl (loadStep cx cz) p = p := by
  induction l with
  | nil => rfl
  | cons d l ih =>
    have hstep : loadStep cx cz p d = p := by
      simp only [loadStep]
      rcases h d (List.mem_cons_self d l) with hc | hl
      · rw [if_neg (by tauto)]
      · rw [if_neg (by tauto)]
    rw [List.foldl_cons, hstep]
    exact ih fun e he => h e (List.mem_cons_of_mem d he)

lemma viewOffsets_bound :
    ∀ d ∈ viewOffsets, |d.1| ≤ VIEW_DISTANCE ∧ |d.2| ≤ VIEW_DISTANCE := by decide

lemma isFar_eq_false_iff (cx cz : ℤ) (k : ℤ × ℤ) :
    isFar cx cz k = false ↔ |k.1 - cx| ≤ VIEW_DISTANCE ∧ |k.2 - cz| ≤ VIEW_DISTANCE := by
  simp [isFar]

lemma isFar_eq_true_iff (cx cz : ℤ) (k : ℤ × ℤ) :
    isFar cx cz k = true ↔
      VIEW_DISTANCE < |k.1 - cx| ∨ VIEW_DISTANCE < |k.2 - cz| := by
  simp [isFar]

lemma loadPhase_def (s : CMState) (cx cz : ℤ) :
    loadPhase s cx cz = viewOffsets.foldl (loadStep cx cz) (s, []) := rfl

lemma unloadPhase_loadingChunks (s : CMState) (cx cz : ℤ) :
    (unloadPhase s cx cz).loadingChunks = s.loadingChunks := rfl

lemma unloadPhase_chunks (s : CMState) (cx cz : ℤ) :
    (unloadPhase s cx cz).chunks = s.chunks.filter fun k => !isFar cx cz k := rfl

lemma unloadPhase_scene (s : CMState) (cx cz : ℤ) :
    (unloadPhase s cx cz).scene
      = s.scene.filter fun m => !(isFar cx cz m && decide (m ∈ s.chunks)) := rfl

lemma loadChunksAround_eq (s : CMState) (x z : ℤ) :
    loadChunksAround s x z =
      (unloadPhase (loadPhase s (Int.fdiv x CHUNK_SIZE) (Int.fdiv z CHUNK_SIZE)).1
          (Int.fdiv x CHUNK_SIZE) (Int.fdiv z CHUNK_SIZE),
        (loadPhase s (Int.fdiv x CHUNK_SIZE) (Int.fdiv z CHUNK_SIZE)).2) := rfl

lemma loadChunksAround_fst (s : CMState) (x z : ℤ) :
    (loadChunksAround s x z).1
      = unloadPhase (loadPhase s (Int.fdiv x CHUNK_SIZE) (Int.fdiv z CHUNK_SIZE)).1
          (Int.fdiv x CHUNK_SIZE) (Int.fdiv z CHUNK_SIZE) := by
  rw [loadChunksAround_eq]

lemma loadChunksAround_snd (s : CMState) (x z : ℤ) :
    (loadChunksAround s x z).2
      = (loadPhase s (Int.fdiv x CHUNK_SIZE) (Int.fdiv z CHUNK_SIZE)).2 := by
  rw [loadChunksAround_eq]

/-! ### Claim theorems -/

/-- C1: for every generation task started by `loadChunksAround`, the
chunk's key is in the in-flight set when the call returns (it was added
immediately before `_generateChunk` was invoked), and when the task
finishes — successfully or by an uncaught error — the `finally` block has
removed the key from the in-flight set, so a failed task never leaves a
permanent in-flight marker. -/
theorem generateChunk_inflight_discipline :
    (∀ (s : CMState) (x z : ℤ), ∀ k ∈ (loadChunksAround s x z).2,
        k ∈ (loadChunksAround s x z).1.loadingChunks) ∧
    (∀ (s : CMState) (key : ℤ × ℤ) (success : Bool),
        key ∉ (generateChunkRun s key success).loadingChunks) := by
  constructor
  · intro s x z k hk
    rcases loadFold_spec (Int.fdiv x CHUNK_SIZE) (Int.fdiv z CHUNK_SIZE) viewOffsets (s, [])
      with ⟨new, h1, h2, h3, h4, h5, h6⟩
    rw [← loadPhase_def] at h3 h4
    rw [loadChunksAround_snd, h4] at hk
    rw [loadChunksAround_fst, unloadPhase_loadingChunks, h3]
    exact List.mem_append_right _ (by simpa using hk)
  · intro s key success
    cases success <;> simp [generateChunkRun]

set_option maxRecDepth 200000 in
/-- Witness for C1: on a fresh manager, `loadChunksAround(0, 0)` starts a
task for key `(-2, -2)` and that key is in the in-flight set afterwards; a
failed task run for `(0, 0)` leaves the key out of the in-flight set. -/
theorem generateChunk_inflight_discipline_witness :
    (((-2, -2) : ℤ × ℤ) ∈ (loadChunksAround CMState.init 0 0).2 ∧
      ((-2, -2) : ℤ × ℤ) ∈ (loadChunksAround CMState.init 0 0).1.loadingChunks) ∧
    ((0, 0) : ℤ × ℤ) ∉ (generateChunkRun CMState.init (0, 0) false).loadingChunks :=
  ⟨⟨by decide, generateChunk_inflight_discipline.1 CMState.init 0 0 (-2, -2) (by decide)⟩,
    generateChunk_inflight_discipline.2 CMState.init (0, 0) false⟩

/-- C2: two consecutive `loadChunksAround` calls at the same viewpoint
start no duplicate generation: the second call starts nothing at all, the
first call's started keys are pairwise distinct, and generation is started
only for keys that were neither loaded nor in-flight. -/
theorem loadChunksAround_idempotent (s : CMState) (x z : ℤ) :
    (loadChunksAround (loadChunksAround s x z).1 x z).2 = [] ∧
    (loadChunksAround s x z).2.Nodup ∧
    ∀ k ∈ (loadChunksAround s x z).2, k ∉ s.chunks ∧ k ∉ s.loadingChunks := by
  set cx := Int.fdiv x CHUNK_SIZE with hcx
  set cz := Int.fdiv z CHUNK_SIZE with hcz
  rcases loadFold_spec cx cz viewOffsets (s, []) with ⟨new, h1, h2, h3, h4, h5, h6⟩
  rw [← loadPhase_def] at h1 h2 h3 h4
  refine ⟨?_, ?_, ?_⟩
  · rw [loadChunksAround_snd, loadChunksAround_fst, ← hcx, ← hcz, loadPhase_def]
    rw [loadFold_no_tasks]
    intro d hd
    have hcover := loadFold_covers cx cz viewOffsets (s, []) d hd
    rw [← loadPhase_def] at hcover
    have hb := viewOffsets_bound d hd
    rcases hcover with hc | hl
    · left
      show _ ∈ (unloadPhase (loadPhase s cx cz).1 cx cz).chunks
      rw [unloadPhase_chunks, List.mem_filter]
      refine ⟨hc, ?_⟩
      have hfalse : isFar cx cz (cx + d.1, cz + d.2) = false := by
        rw [isFar_eq_false_iff]
        constructor
        · have h : cx + d.1 - cx = d.1 := by ring
          rw [h]
          exact hb.1
        · have h : cz + d.2 - cz = d.2 := by ring
          rw [h]
          exact hb.2
      simp [hfalse]
    · right
      show _ ∈ (unloadPhase (loadPhase s cx cz).1 cx cz).loadingChunks
      rw [unloadPhase_loadingChunks]
      exact hl
  · rw [loadChunksAround_snd, ← hcx, ← hcz, h4]
    simpa using h5
  · intro k hk
    rw [loadChunksAround_snd, ← hcx, ← hcz, h4] at hk
    exact h6 k (by simpa using hk)

set_option maxRecDepth 200000 in
/-- Witness for C2: on a fresh manager at viewpoint `(0, 0)`, the key
`(0, 0)` is started and was neither loaded nor in-flight beforehand. -/
theorem loadChunksAround_idempotent_witness :
    ((0, 0) : ℤ × ℤ) ∈ (loadChunksAround CMState.init 0 0).2 ∧
    ((0, 0) : ℤ × ℤ) ∉ CMState.init.chunks ∧
    ((0, 0) : ℤ × ℤ) ∉ CMState.init.loadingChunks :=
  ⟨by decide, (loadChunksAround_idempotent CMState.init 0 0).2.2 (0, 0) (by decide)⟩

set_option maxRecDepth 200000 in
/-- C3: within the same `loadChunksAround(x, z)` call every key whose
Chebyshev distance from the view chunk `(⌊x/32⌋, ⌊z/32⌋)` exceeds the view
distance is absent from the loaded map afterwards, and if it was loaded
its mesh is detached from the scene; concretely, `loadChunksAround(0,0)`
followed by task completion and `loadChunksAround(CHUNK_SIZE*2*D, 0)`
leaves chunk `(0, 0)` out of the loaded set (immediately and after the
second call's tasks complete) while the view square around the new view
chunk `(4, 0)` is fully loaded once those tasks complete. -/
theorem loadChunksAround_unload_policy :
    (∀ (s : CMState) (x z : ℤ) (k : ℤ × ℤ),
        (VIEW_DISTANCE < |k.1 - Int.fdiv x CHUNK_SIZE| ∨
          VIEW_DISTANCE < |k.2 - Int.fdiv z CHUNK_SIZE|) →
        k ∉ (loadChunksAround s x z).1.chunks ∧
        (k ∈ s.chunks → k ∉ (loadChunksAround s x z).1.scene)) ∧
    (((0, 0) : ℤ × ℤ) ∉ scenarioSecond.1.chunks ∧
      ((0, 0) : ℤ × ℤ) ∉ scenarioFinal.chunks ∧
      ∀ d ∈ viewOffsets, (4 + d.1, d.2) ∈ scenarioFinal.chunks) := by
  constructor
  · intro s x z k hfar
    rcases loadFold_spec (Int.fdiv x CHUNK_SIZE) (Int.fdiv z CHUNK_SIZE) viewOffsets (s, [])
      with ⟨new, h1, h2, h3, h4, h5, h6⟩
    rw [← loadPhase_def] at h1 h2
    have hfarb : isFar (Int.fdiv x CHUNK_SIZE) (Int.fdiv z CHUNK_SIZE) k = true :=
      (isFar_eq_true_iff _ _ _).mpr hfar
    constructor
    · rw [loadChunksAround_fst, unloadPhase_chunks, List.mem_filter]
      rintro ⟨hmem, hcond⟩
      rw [hfarb] at hcond
      simp at hcond
    · intro hks
      rw [loadChunksAround_fst, unloadPhase_scene, List.mem_filter]
      rintro ⟨hmem, hcond⟩
      rw [h1] at hcond
      simp [hfarb, hks] at hcond
  · refine ⟨by decide, by decide, by decide⟩

set_option maxRecDepth 200000 in
/-- Witness for C3: a manager with chunk `(5, 0)` loaded and its mesh in
the scene; after `loadChunksAround(0, 0)` the far-away key `(5, 0)` is
gone from the loaded map and its mesh is out of the scene. -/
theorem loadChunksAround_unload_policy_witness :
    (VIEW_DISTANCE < |(5 : ℤ) - Int.fdiv 0 CHUNK_SIZE| ∨
      VIEW_DISTANCE < |(0 : ℤ) - Int.fdiv 0 CHUNK_SIZE|) ∧
    ((5, 0) : ℤ × ℤ) ∈ (⟨[(5, 0)], [], [(5, 0)]⟩ : CMState).chunks ∧
    ((5, 0) : ℤ × ℤ) ∉ (loadChunksAround ⟨[(5, 0)], [], [(5, 0)]⟩ 0 0).1.chunks ∧
    ((5, 0) : ℤ × ℤ) ∉ (loadChunksAround ⟨[(5, 0)], [], [(5, 0)]⟩ 0 0).1.scene :=
  ⟨by decide, by decide,
    (loadChunksAround_unload_policy.1 ⟨[(5, 0)], [], [(5, 0)]⟩ 0 0 (5, 0) (by decide)).1,
    (loadChunksAround_unload_policy.1 ⟨[(5, 0)], [], [(5, 0)]⟩ 0 0 (5, 0) (by decide)).2
      (by decide)⟩

/-- C4 (code bug): the per-column fallback height is *not* determined by
the world seed and the coordinates alone.  `VoxelChunk`'s constructor sets
`this.noise = createNoise2D()` with no argument, so the noise function is
seeded from `Math.random()` per instance; two independently constructed
chunks with identical seed, chunk coordinates and grid dimensions can draw
noise functions (both within the simplex-noise output range `[-1, 1]`)
that give different fallback heights for the same column. -/
theorem fallback_height_not_seed_determined :
    ∃ n1 n2 : ℚ → ℚ → ℚ,
      (∀ a b, -1 ≤ n1 a b ∧ n1 a b ≤ 1) ∧ (∀ a b, -1 ≤ n2 a b ∧ n2 a b ≤ 1) ∧
      getNoiseHeight n1 32 64 0 0 0 0 ≠ getNoiseHeight n2 32 64 0 0 0 0 := by
  refine ⟨fun _ _ => 0, fun _ _ => 1, fun a b => by norm_num, fun a b => by norm_num, ?_⟩
  unfold getNoiseHeight
  norm_num

/-- C5 counterexample: `hash` does not map into `[0, 1)` — at the world
seed 12345 already `hash(0, 0)` is negative, because `h ^ (h >>> 16)` is a
signed 32-bit value. -/
theorem hash_negative_at_origin : hash worldSeed 0 0 < 0 := by
  have h : hashInt worldSeed 0 0 = -356653179 := by decide
  unfold hash
  rw [h]
  norm_num

/-- C5 (amended): `hash(x, y)` is deterministic — identical inputs give
identical outputs — and always lies in the half-open interval `[-1, 1)`
(not `[0, 1)`): the signed 32-bit numerator lies in `[-2^31, 2^31)` and is
divided by `2^31`. -/
theorem hash_unit_range_amended (x y x' y' : ℤ) (hx : x = x') (hy : y = y') :
    hash worldSeed x y = hash worldSeed x' y' ∧
    -1 ≤ hash worldSeed x y ∧ hash worldSeed x y < 1 := by
  subst hx; subst hy
  refine ⟨rfl, ?_, ?_⟩
  · unfold hash
    rw [le_div_iff₀ (by norm_num : (0:ℚ) < 2147483648)]
    have h := (hashInt_bounds worldSeed x y).1
    have hcast : (-2147483648 : ℚ) ≤ (hashInt worldSeed x y : ℚ) := by exact_mod_cast h
    linarith
  · unfold hash
    rw [div_lt_one (by norm_num : (0:ℚ) < 2147483648)]
    exact_mod_cast (hashInt_bounds worldSeed x y).2

/-- Witness for the amended C5 at `(x, y) = (0, 0)`. -/
theorem hash_unit_range_amended_witness :
    hash worldSeed 0 0 = hash worldSeed 0 0 ∧
    -1 ≤ hash worldSeed 0 0 ∧ hash worldSeed 0 0 < 1 :=
  hash_unit_range_amended 0 0 0 0 rfl rfl

/-- C6 counterexample: `dispose()` on a chunk with no mesh is *not* safe —
`this.mesh.geometry` throws a `TypeError` when `this.mesh` is `null`
(modelled as `none`). -/
theorem dispose_throws_without_mesh : (VoxelChunk.new 1 1).dispose = none := rfl

/-- C6 (amended): `dispose()` succeeds exactly when a mesh exists; in
particular it is safe after `buildMesh` has installed a mesh and safe to
call again after that, but it throws when no mesh exists. -/
theorem dispose_safety_amended (c : VoxelChunk) :
    (c.dispose.isSome ↔ c.mesh ≠ none) ∧
    c.buildMesh.dispose = some c.buildMesh ∧
    c.buildMesh.dispose.bind VoxelChunk.dispose = some c.buildMesh := by
  refine ⟨?_, rfl, rfl⟩
  cases h : c.mesh <;> simp [VoxelChunk.dispose, h]

/-- C7: a 1×1×1 chunk whose single voxel is solid meshes to exactly 6
quads — 24 vertices (72 pushed coordinates), 12 triangles (36 indices) and
an index counter of 24 (4 per quad) — because all six out-of-bounds
neighbors read as empty. -/
theorem single_voxel_mesh_counts :
    ((VoxelChunk.new 1 1).setBlock 0 0 0 1).buildMeshData.vertices.length = 3 * 24 ∧
    ((VoxelChunk.new 1 1).setBlock 0 0 0 1).buildMeshData.indices.length = 3 * 12 ∧
    ((VoxelChunk.new 1 1).setBlock 0 0 0 1).buildMeshData.indexCount = 4 * 6 := by
  decide

/-- C8 counterexample: `setBlock` does *not* validate its coordinates —
on a 2×2×2 grid the out-of-bounds write `setBlock(2, 0, 0, 7)` lands on
the flat index of the in-bounds cell `(0, 1, 0)`, which a validated write
would have left at 0. -/
theorem setBlock_unvalidated_aliasing :
    ((VoxelChunk.new 2 2).setBlock 2 0 0 7).getBlock 0 1 0 = 7 ∧
    (VoxelChunk.new 2 2).getBlock 0 1 0 = 0 := by decide

/-- C8 (amended): `getBlock` validates its coordinates and returns 0
(never an error) outside `[0,size)×[0,maxHeight)×[0,size)`, but `setBlock`
computes the flat index without validation, so an out-of-bounds coordinate
can alias an in-bounds cell. -/
theorem grid_access_amended (c : VoxelChunk) (x y z : ℤ)
    (h : x < 0 ∨ (c.size : ℤ) ≤ x ∨ y < 0 ∨ (c.maxHeight : ℤ) ≤ y
      ∨ z < 0 ∨ (c.size : ℤ) ≤ z) :
    c.getBlock x y z = 0 ∧
    ((VoxelChunk.new 2 2).setBlock 2 0 0 7).getBlock 0 1 0 = 7 := by
  refine ⟨?_, by decide⟩
  unfold VoxelChunk.getBlock
  rw [if_pos h]

/-- Witness for the amended C8 at `(x, y, z) = (-1, 0, 0)` on a fresh
2×2×2 chunk. -/
theorem grid_access_amended_witness :
    ((-1 : ℤ) < 0 ∨ ((VoxelChunk.new 2 2).size : ℤ) ≤ -1 ∨ (0 : ℤ) < 0 ∨
      ((VoxelChunk.new 2 2).maxHeight : ℤ) ≤ 0 ∨ (0 : ℤ) < 0 ∨
      ((VoxelChunk.new 2 2).size : ℤ) ≤ 0) ∧
    ((VoxelChunk.new 2 2).getBlock (-1) 0 0 = 0 ∧
      ((VoxelChunk.new 2 2).setBlock 2 0 0 7).getBlock 0 1 0 = 7) :=
  ⟨by decide, grid_access_amended (VoxelChunk.new 2 2) (-1) 0 0 (by decide)⟩

/-- C9: for a depth strictly between the shallow cutoff (25) and the mid
cutoff (35), `shouldCarveBlock` compares the combined three-scale noise
value against the shallow-bracket threshold 0.2 and carves exactly when
the combined value is below it — for every noise function. -/
theorem carve_threshold_shallow_bracket (noise3D : ℚ → ℚ → ℚ → ℚ) (x y z : ℚ)
    (h1 : shallowCaveDepth < y) (h2 : y < midDepthCutoff) :
    shouldCarveBlock noise3D x y z = true ↔ combinedCave noise3D x y z < 0.2 := by
  have hs : ¬ (y > surfaceCutoff) := by
    unfold surfaceCutoff; unfold midDepthCutoff at h2; linarith
  have hsh : ¬ (y < shallowCaveDepth) := by linarith
  have hd : ¬ (y > deepCaveDepth) := by
    unfold deepCaveDepth; unfold midDepthCutoff at h2; linarith
  simp only [shouldCarveBlock, if_neg hs, if_neg hsh, if_pos h2, if_neg hd,
    decide_eq_true_iff]

/-- Witness for C9 at depth 30 with the constant-zero noise function. -/
theorem carve_threshold_shallow_bracket_witness :
    shallowCaveDepth < 30 ∧ (30 : ℚ) < midDepthCutoff ∧
    (shouldCarveBlock (fun _ _ _ => 0) 0 30 0 = true ↔
      combinedCave (fun _ _ _ => 0) 0 30 0 < 0.2) :=
  ⟨by norm_num [shallowCaveDepth], by norm_num [midDepthCutoff],
    carve_threshold_shallow_bracket (fun _ _ _ => 0) 0 30 0
      (by norm_num [shallowCaveDepth]) (by norm_num [midDepthCutoff])⟩

/-- C10: in the `src/unnamed/part_007` variant the deep-bracket threshold
0.35 (guarded by `depth > deepCaveDepth = 60`) is unreachable, because
`shouldCarveBlock` returns `false` whenever `worldY > surfaceCutoff = 45`;
the function coincides extensionally with the two-bracket version that
drops the deep rule, for every noise function and every input. -/
theorem carve_deep_bracket_unreachable (noise3D : ℚ → ℚ → ℚ → ℚ) (x y z : ℚ) :
    shouldCarveBlock noise3D x y z = shouldCarveBlockTwoBracket noise3D x y z := by
  unfold shouldCarveBlock shouldCarveBlockTwoBracket
  by_cases hs : y > surfaceCutoff
  · simp [hs]
  · have hd : ¬ (y > deepCaveDepth) := by
      unfold surfaceCutoff at hs; unfold deepCaveDepth; linarith
    simp [hs, hd]

end Mekeni
